import Mathlib

/-!
Route handlers of `src/index.js`.

A shallow embedding of the Express route handlers of `src/index.js` (signup,
login, session create / update / delete, attendance registration and listing).

* The relational store is three tables (lists of rows) with auto-increment
  counters; every SQL statement the handlers issue is a constructor of `Stmt`
  with its effect on the tables.
* A handler is a function on a `World` (store, response object, chronological
  log of what happened) that either completes or throws: `H`.
* `try { .. } catch (error) { .. }` is `tryCatch`; a JavaScript `return` inside
  a block is the value `Flow.returned`, falling out of the block is `Flow.next`.
* The test `rows.length === 0` followed by a read of `rows[0]` is a match on
  the list of rows.
* The collaborators that are not part of the file (store failures, `bcrypt`,
  `jsonwebtoken`) are the fields of `Env`.
* What the middlewares hand to a handler is its input: the parsed body (the
  schema middleware `validateData` has let it through), the identity `req.user`
  set by `checkAuth`, and the number `parseInt(req.params.id)`.
-/

namespace TPNodeJS

/-! ## Data model -/

/-- A row of table `users`. -/
structure User where
  id : Nat
  name : String
  email : String
  password : String
  role : String
deriving DecidableEq, Repr

/-- A row of table `sessions`. -/
structure Session where
  id : Nat
  title : String
  date : String
  formateur_id : Nat
deriving DecidableEq, Repr

/-- A row of table `emargements`. -/
structure Emargement where
  id : Nat
  session_id : Nat
  etudiant_id : Nat
  status : Bool
deriving DecidableEq, Repr

/-- A row of the join of line 415:
`SELECT users.id, name, email, role, session_id, status FROM users INNER JOIN emargements ..`. -/
structure AttendanceRow where
  id : Nat
  name : String
  email : String
  role : String
  session_id : Nat
  status : Bool
deriving DecidableEq, Repr

/-- The relational store behind `db`: the three tables and, for each, the value
the next `INSERT` receives as `insertId`. -/
structure Store where
  users : List User
  sessions : List Session
  emargements : List Emargement
  nextUserId : Nat
  nextSessionId : Nat
  nextEmargementId : Nat
deriving DecidableEq, Repr

/-- The identity `req.user` attached by `checkAuth`: the token payload. -/
structure Identity where
  id : Nat
  role : String
deriving DecidableEq, Repr

/-- Body of `POST /auth/signup`. -/
structure SignupData where
  name : String
  email : String
  password : String
  role : String
deriving DecidableEq, Repr

/-- Body of `POST /auth/login`. -/
structure LoginData where
  email : String
  password : String
deriving DecidableEq, Repr

/-- Body of `POST /sessions` and `PUT /sessions/:id`. -/
structure SessionData where
  title : String
  date : String
deriving DecidableEq, Repr

/-- Body of `POST /sessions/:id/emargement`. -/
structure EmargementData where
  presence : Bool
deriving DecidableEq, Repr

/-! ## Statements, responses, log -/

/-- The SQL statements of `src/index.js`, with their bound parameters. -/
inductive Stmt where
  /-- Line 41: `SELECT * FROM users WHERE email = ?`. -/
  | selectUsersByEmail (email : String)
  /-- Line 83: `SELECT id, password, role FROM users WHERE email = ?`. -/
  | selectCredentialsByEmail (email : String)
  /-- Line 59: `INSERT INTO users (name, email, password, role) VALUES (?, ?, ?, ?)`. -/
  | insertUser (name email password role : String)
  /-- Line 147: `INSERT INTO sessions (title, date, formateur_id) VALUES (?, ?, ?)`. -/
  | insertSession (title date : String) (formateur_id : Nat)
  /-- Line 163: `SELECT * FROM sessions`. -/
  | selectSessions
  /-- Lines 182, 332, 393: `SELECT * FROM sessions WHERE id = ?`. -/
  | selectSessionById (id : Nat)
  /-- Lines 221, 272: `SELECT formateur_id FROM sessions WHERE id = ?`. -/
  | selectFormateurIdById (id : Nat)
  /-- Line 243: `UPDATE sessions SET ? WHERE id = ?` with `{ title, date }`. -/
  | updateSession (title date : String) (id : Nat)
  /-- Line 294: `DELETE FROM sessions WHERE id = ?`. -/
  | deleteSession (id : Nat)
  /-- Line 349: `SELECT * FROM emargements WHERE etudiant_id = ? AND session_id = ?`. -/
  | selectEmargement (etudiant_id session_id : Nat)
  /-- Line 366: `INSERT INTO emargements (session_id, etudiant_id, status) VALUES (?, ?, ?)`. -/
  | insertEmargement (session_id etudiant_id : Nat) (status : Bool)
  /-- Line 415: the join of `users` and `emargements` for one session. -/
  | selectAttendance (session_id : Nat)
deriving DecidableEq, Repr

/-- The write statements: `INSERT`, `UPDATE`, `DELETE`. -/
def Stmt.isWrite : Stmt → Bool
  | .insertUser _ _ _ _ => true
  | .insertSession _ _ _ => true
  | .updateSession _ _ _ => true
  | .deleteSession _ => true
  | .insertEmargement _ _ _ => true
  | _ => false

/-- What a handler passes to `res.json` / `res.send`. -/
inductive Body where
  /-- The object `{ message: .. }`. -/
  | message (text : String)
  /-- The object `{ error: error.message }`. -/
  | error (text : String)
  /-- A plain string given to `res.send`. -/
  | text (text : String)
  /-- The call `res.send()` without argument. -/
  | empty
  /-- Line 64: `{ id, name, email, role }`. -/
  | user (id : Nat) (name email role : String)
  /-- Line 106: `{ token }`. -/
  | token (token : String)
  /-- Line 151: `{ id, title, date, formateur_id }`. -/
  | session (id : Nat) (title date : String) (formateur_id : Nat)
  /-- Line 165: all rows of `sessions`. -/
  | sessionRows (rows : List Session)
  /-- Line 191: `rows[0]` of a session lookup. -/
  | sessionRow (row : Session)
  /-- Line 370: `{ id, session_id, etudiant_id, presence }`. -/
  | emargement (id session_id etudiant_id : Nat) (presence : Bool)
  /-- Line 419: the rows of the attendance join. -/
  | attendance (rows : List AttendanceRow)
deriving DecidableEq, Repr

/-- A response as it leaves the server. -/
structure Response where
  status : Nat
  body : Body
deriving DecidableEq, Repr

/-- One entry of the chronological log of a request. -/
inductive Event where
  /-- A statement handed to `db.query` / `db.execute`, and whether it succeeded. -/
  | stmt (s : Stmt) (succeeded : Bool)
  /-- A response written to the client. -/
  | response (r : Response)
  /-- A call of `bcrypt.hash`. -/
  | hash (plaintext : String)
  /-- A call of `bcrypt.compare`. -/
  | compare (plaintext hashed : String)
  /-- A call of `jwt.sign` with payload `{ id, role }`. -/
  | sign (id : Nat) (role : String)
deriving DecidableEq, Repr

/-- The collaborators of the handlers that live outside `src/index.js`. -/
structure Env where
  /-- The error, if any, with which the `n`-th store call of the request is
  rejected (`n` counts from 0). A rejected statement leaves the tables as they are. -/
  storeFails : Nat → Option String
  /-- The call `bcrypt.hash(password, 10)`: the hash, or the error it throws. -/
  hash : String → Except String String
  /-- The call `bcrypt.compare(password, stored)`: the verdict, or the error it throws. -/
  compare : String → String → Except String Bool
  /-- The call `jwt.sign({ id, role }, process.env.JWT_KEY)`: the token, or the
  error it throws (for instance when `JWT_KEY` is not set). -/
  sign : Nat → String → Except String String

/-! ## The handler monad -/

/-- State of one request: the store, the response object, the log. -/
structure World where
  store : Store
  /-- Number of store calls issued so far. -/
  calls : Nat
  /-- Field `res.statusCode`. -/
  statusCode : Nat
  /-- Field `res.headersSent`. -/
  headersSent : Bool
  log : List Event
deriving DecidableEq, Repr

/-- Result of running a piece of handler code: normal completion or a thrown
error (its `message`), each with the state reached. -/
inductive Res (α : Type) where
  | ok (a : α) (w : World)
  | threw (error : String) (w : World)
deriving DecidableEq, Repr

/-- Handler code. -/
def H (α : Type) : Type := World → Res α

/-- Sequencing: a throw skips what follows. -/
def H.bind {α β : Type} (m : H α) (f : α → H β) : H β := fun w =>
  match m w with
  | .ok a w' => f a w'
  | .threw e w' => .threw e w'

/-- Completion with a value. -/
def H.pure {α : Type} (a : α) : H α := fun w => .ok a w

instance : Monad H where
  pure := H.pure
  bind := H.bind

/-- The statement `try { body } catch (error) { handler }`. -/
def tryCatch {α : Type} (body : H α) (handler : String → H α) : H α := fun w =>
  match body w with
  | .ok a w' => .ok a w'
  | .threw e w' => handler e w'

/-- How control leaves a block of a handler: through a `return` statement, or
by reaching its end (the statements after the block run next). -/
inductive Flow where
  | returned
  | next
deriving DecidableEq, Repr

/-- A store call: rejected with the error `env.storeFails` gives for this call,
else `run` is applied to the tables. Either way the statement is logged. -/
def storeCall {α : Type} (env : Env) (s : Stmt) (run : Store → Store × α) : H α := fun w =>
  match env.storeFails w.calls with
  | some e => .threw e { w with calls := w.calls + 1, log := w.log ++ [.stmt s false] }
  | none =>
    .ok (run w.store).2
      { w with store := (run w.store).1, calls := w.calls + 1, log := w.log ++ [.stmt s true] }

/-- The call `res.status(code)`. -/
def resStatus (code : Nat) : H Unit := fun w => .ok () { w with statusCode := code }

/-- The calls `res.json(body)` and `res.send(body)`: write the response with the
current status code, or throw when a response has already been written
(`ERR_HTTP_HEADERS_SENT`: the headers cannot be set again). -/
def resSend (body : Body) : H Unit := fun w =>
  if w.headersSent then .threw "Cannot set headers after they are sent to the client" w
  else .ok () { w with headersSent := true, log := w.log ++ [.response ⟨w.statusCode, body⟩] }

/-- The call `bcrypt.hash(password, 10)`. -/
def bcryptHash (env : Env) (password : String) : H String := fun w =>
  match env.hash password with
  | .ok h => .ok h { w with log := w.log ++ [.hash password] }
  | .error e => .threw e { w with log := w.log ++ [.hash password] }

/-- The call `bcrypt.compare(password, stored)`. -/
def bcryptCompare (env : Env) (password stored : String) : H Bool := fun w =>
  match env.compare password stored with
  | .ok b => .ok b { w with log := w.log ++ [.compare password stored] }
  | .error e => .threw e { w with log := w.log ++ [.compare password stored] }

/-- The call `jwt.sign({ id, role }, process.env.JWT_KEY)`. -/
def jwtSign (env : Env) (id : Nat) (role : String) : H String := fun w =>
  match env.sign id role with
  | .ok token => .ok token { w with log := w.log ++ [.sign id role] }
  | .error e => .threw e { w with log := w.log ++ [.sign id role] }

/-! ## The store operations

A `WHERE column = ?` keeps the rows whose column equals the bound parameter
(equality of numbers, equality of strings); an `INSERT` appends a row whose id
is the table's counter and returns it as `insertId`. -/

/-- Line 40: `db.query("SELECT * FROM users WHERE email = ?", [email])`. -/
def selectUsersByEmail (env : Env) (email : String) : H (List User) :=
  storeCall env (.selectUsersByEmail email) fun st =>
    (st, st.users.filter fun u => u.email == email)

/-- Line 82: `db.query("SELECT id, password, role FROM users WHERE email = ?", [email])`;
the handler reads the columns `id`, `password`, `role` of the first row. -/
def selectCredentialsByEmail (env : Env) (email : String) : H (List User) :=
  storeCall env (.selectCredentialsByEmail email) fun st =>
    (st, st.users.filter fun u => u.email == email)

/-- Line 58: the `INSERT INTO users`; the value is `result.insertId`. -/
def insertUser (env : Env) (name email password role : String) : H Nat :=
  storeCall env (.insertUser name email password role) fun st =>
    ({ st with
        users := st.users ++ [⟨st.nextUserId, name, email, password, role⟩],
        nextUserId := st.nextUserId + 1 },
      st.nextUserId)

/-- Line 146: the `INSERT INTO sessions`; the value is `result.insertId`. -/
def insertSession (env : Env) (title date : String) (formateur_id : Nat) : H Nat :=
  storeCall env (.insertSession title date formateur_id) fun st =>
    ({ st with
        sessions := st.sessions ++ [⟨st.nextSessionId, title, date, formateur_id⟩],
        nextSessionId := st.nextSessionId + 1 },
      st.nextSessionId)

/-- Line 163: `db.query("SELECT * FROM sessions")`. -/
def selectSessions (env : Env) : H (List Session) :=
  storeCall env .selectSessions fun st => (st, st.sessions)

/-- Lines 181, 331, 392: `db.query("SELECT * FROM sessions WHERE id = ?", [id])`. -/
def selectSessionById (env : Env) (id : Nat) : H (List Session) :=
  storeCall env (.selectSessionById id) fun st =>
    (st, st.sessions.filter fun s => s.id == id)

/-- Lines 220, 271: `db.query("SELECT formateur_id FROM sessions WHERE id = ?", [id])`;
the handler reads the column `formateur_id` of the first row. -/
def selectFormateurIdById (env : Env) (id : Nat) : H (List Session) :=
  storeCall env (.selectFormateurIdById id) fun st =>
    (st, st.sessions.filter fun s => s.id == id)

/-- Line 242: `db.query("UPDATE sessions SET ? WHERE id = ?", [{ title, date }, id])`. -/
def updateSession (env : Env) (title date : String) (id : Nat) : H Unit :=
  storeCall env (.updateSession title date id) fun st =>
    ({ st with
        sessions := st.sessions.map fun s =>
          if s.id == id then { s with title := title, date := date } else s },
      ())

/-- Line 293: `db.query("DELETE FROM sessions WHERE id = ?", [id])`. -/
def deleteSessionById (env : Env) (id : Nat) : H Unit :=
  storeCall env (.deleteSession id) fun st =>
    ({ st with sessions := st.sessions.filter fun s => !(s.id == id) }, ())

/-- Line 348:
`db.query("SELECT * FROM emargements WHERE etudiant_id = ? AND session_id = ?", [user_id, id])`. -/
def selectEmargement (env : Env) (etudiant_id session_id : Nat) : H (List Emargement) :=
  storeCall env (.selectEmargement etudiant_id session_id) fun st =>
    (st, st.emargements.filter fun e =>
      e.etudiant_id == etudiant_id && e.session_id == session_id)

/-- Line 365: the `INSERT INTO emargements`; the value is `result.insertId`. -/
def insertEmargement (env : Env) (session_id etudiant_id : Nat) (status : Bool) : H Nat :=
  storeCall env (.insertEmargement session_id etudiant_id status) fun st =>
    ({ st with
        emargements :=
          st.emargements ++ [⟨st.nextEmargementId, session_id, etudiant_id, status⟩],
        nextEmargementId := st.nextEmargementId + 1 },
      st.nextEmargementId)

/-- Line 414: the join `users INNER JOIN emargements ON users.id = emargements.etudiant_id
WHERE session_id = ?`. -/
def selectAttendance (env : Env) (session_id : Nat) : H (List AttendanceRow) :=
  storeCall env (.selectAttendance session_id) fun st =>
    (st, st.users.flatMap fun u =>
      (st.emargements.filter fun e =>
        u.id == e.etudiant_id && e.session_id == session_id).map fun e =>
          ⟨u.id, u.name, u.email, u.role, e.session_id, e.status⟩)

/-! ## Request validation of signup (lines 22-36) -/

/-- Number of UTF-16 code units of a character: 2 outside the basic plane. -/
def utf16Units (c : Char) : Nat :=
  if c.toNat < 65536 then 1 else 2

/-- The `length` of a JavaScript string, which counts UTF-16 code units; it is
what `z.string().min(n)` compares with `n`. -/
def jsLength (s : String) : Nat :=
  (s.data.map utf16Units).sum

/-- Lines 22-27, `signupSchema`: `name` of `length` at least 2, `email` of
e-mail format, `password` of `length` at least 8, `role` of `length` at least
2. The e-mail format test of the validation library is `isEmail`. -/
def signupSchema (isEmail : String → Bool) (data : SignupData) : Bool :=
  decide (2 ≤ jsLength data.name) && isEmail data.email &&
    decide (8 ≤ jsLength data.password) && decide (2 ≤ jsLength data.role)

/-- Line 32, negated: the roles the signup handler lets through. -/
def roleAccepted (role : String) : Bool :=
  !(role != "formateur" && role != "etudiant")

/-! ## The handlers -/

/-- Lines 28-70, `POST /auth/signup`. -/
def signup (env : Env) (data : SignupData) : H Unit :=
  if data.role != "formateur" && data.role != "etudiant" then do
    resStatus 400
    resSend (.message "The \x27role\x27 must be \x27formateur\x27 or \x27etudiant\x27")
  else do
    let flow ← tryCatch
      (do
        let rows ← selectUsersByEmail env data.email
        if rows.length > 0 then do
          resStatus 401
          resSend (.message "Unauthorized")
          pure Flow.returned
        else pure Flow.next)
      (fun error => do
        resStatus 500
        resSend (.error error)
        pure Flow.returned)
    match flow with
    | .returned => pure ()
    | .next =>
      tryCatch
        (do
          let hashedPassword ← bcryptHash env data.password
          let insertId ← insertUser env data.name data.email hashedPassword data.role
          resStatus 200
          resSend (.user insertId data.name data.email data.role))
        (fun error => do
          resStatus 500
          resSend (.error error))

/-- Lines 77-114, `POST /auth/login`. -/
def login (env : Env) (data : LoginData) : H Unit :=
  tryCatch
    (do
      let rows ← selectCredentialsByEmail env data.email
      match rows with
      | [] => do
        resStatus 401
        resSend (.text "Unauthorized")
      | row :: _ => do
        let isRightPassword ← bcryptCompare env data.password row.password
        if !isRightPassword then do
          resStatus 401
          resSend (.text "Unauthorized")
        else do
          let token ← jwtSign env row.id row.role
          resStatus 200
          resSend (.token token))
    (fun error => do
      resStatus 500
      resSend (.error error))

/-- Lines 132-157, `POST /sessions`. -/
def createSession (env : Env) (user : Identity) (data : SessionData) : H Unit :=
  if user.role != "formateur" then do
    resStatus 401
    resSend (.message "Unauthorized, need -> role: \x27formateur\x27")
  else
    tryCatch
      (do
        let insertId ← insertSession env data.title data.date user.id
        resStatus 200
        resSend (.session insertId data.title data.date user.id))
      (fun error => do
        resStatus 500
        resSend (.error error))

/-- Lines 160-172, `GET /sessions`. -/
def listSessions (env : Env) : H Unit :=
  tryCatch
    (do
      let rows ← selectSessions env
      resStatus 200
      resSend (.sessionRows rows))
    (fun error => do
      resStatus 500
      resSend (.error error))

/-- Lines 175-198, `GET /sessions/:id`. -/
def getSession (env : Env) (id : Nat) : H Unit :=
  tryCatch
    (do
      let rows ← selectSessionById env id
      match rows with
      | [] => do
        resStatus 404
        resSend (.text "Session not found")
      | row :: _ => do
        resStatus 200
        resSend (.sessionRow row))
    (fun error => do
      resStatus 500
      resSend (.error error))

/-- Line 205: the handler body of `PUT /sessions/:id` opens with the bare
identifier `az`. Nothing in the module declares `az`, so evaluating it throws
a `ReferenceError`. -/
def az : H Unit := fun w => .threw "az is not defined" w

/-- Lines 205-254, `PUT /sessions/:id`. -/
def putSession (env : Env) (user : Identity) (id : Nat) (data : SessionData) : H Unit := do
  az
  if user.role != "formateur" then do
    resStatus 401
    resSend (.message "Unauthorized, need -> role: \x27formateur\x27")
  else do
    let flow ← tryCatch
      (do
        let rows ← selectFormateurIdById env id
        match rows with
        | [] => do
          resStatus 404
          resSend (.text "Session not found")
          pure Flow.returned
        | row :: _ =>
          if row.formateur_id != user.id then do
            resStatus 401
            resSend (.text "Not authorized")
            pure Flow.returned
          else pure Flow.next)
      (fun error => do
        resStatus 500
        resSend (.error error)
        pure Flow.returned)
    match flow with
    | .returned => pure ()
    | .next =>
      tryCatch
        (do
          updateSession env data.title data.date id
          resStatus 200
          resSend .empty)
        (fun error => do
          resStatus 500
          resSend (.error error))

/-- Lines 257-305, `DELETE /sessions/:id`. -/
def deleteSession (env : Env) (user : Identity) (id : Nat) : H Unit :=
  if user.role != "formateur" then do
    resStatus 401
    resSend (.message "Unauthorized, need -> role: \x27formateur\x27")
  else do
    let flow ← tryCatch
      (do
        let rows ← selectFormateurIdById env id
        match rows with
        | [] => do
          resStatus 404
          resSend (.text "Session not found")
          pure Flow.returned
        | row :: _ =>
          if row.formateur_id != user.id then do
            resStatus 401
            resSend (.text "Not authorized")
            pure Flow.returned
          else pure Flow.next)
      (fun error => do
        resStatus 500
        resSend (.error error)
        pure Flow.returned)
    match flow with
    | .returned => pure ()
    | .next =>
      tryCatch
        (do
          deleteSessionById env id
          resStatus 200
          resSend .empty)
        (fun error => do
          resStatus 500
          resSend (.error error))

/-- Lines 316-376, `POST /sessions/:id/emargement`. The `catch` of the second
block (lines 357-360) has no `return`: control goes on to the insertion. -/
def postEmargement (env : Env) (user : Identity) (id : Nat) (data : EmargementData) :
    H Unit :=
  if user.role != "etudiant" then do
    resStatus 401
    resSend (.message "Unauthorized, need -> role: \x27etudiant\x27")
  else do
    let flow ← tryCatch
      (do
        let rows ← selectSessionById env id
        if rows.length == 0 then do
          resStatus 404
          resSend (.text "Session not found")
          pure Flow.returned
        else pure Flow.next)
      (fun error => do
        resStatus 500
        resSend (.error error)
        pure Flow.returned)
    match flow with
    | .returned => pure ()
    | .next => do
      let flow ← tryCatch
        (do
          let result ← selectEmargement env user.id id
          if result.length > 0 then do
            resStatus 401
            resSend (.message "The user is already suscribe to this session")
            pure Flow.returned
          else pure Flow.next)
        (fun error => do
          resStatus 500
          resSend (.error error)
          pure Flow.next)
      match flow with
      | .returned => pure ()
      | .next =>
        tryCatch
          (do
            let insertId ← insertEmargement env id user.id data.presence
            resStatus 200
            resSend (.emargement insertId id user.id data.presence))
          (fun error => do
            resStatus 500
            resSend (.error error))

/-- Lines 378-424, `GET /sessions/:id/emargement`. -/
def getEmargement (env : Env) (user : Identity) (id : Nat) : H Unit :=
  if user.role != "formateur" then do
    resStatus 401
    resSend (.message "Not authorized, need -> role: \x27formateur\x27")
  else do
    let flow ← tryCatch
      (do
        let rows ← selectSessionById env id
        match rows with
        | [] => do
          resStatus 404
          resSend (.text "Session not found")
          pure Flow.returned
        | row :: _ =>
          if user.id != row.formateur_id then do
            resStatus 401
            resSend (.text "Unauthorized")
            pure Flow.returned
          else pure Flow.next)
      (fun error => do
        resStatus 500
        resSend (.error error)
        pure Flow.returned)
    match flow with
    | .returned => pure ()
    | .next =>
      tryCatch
        (do
          let rows ← selectAttendance env id
          resStatus 200
          resSend (.attendance rows))
        (fun error => do
          resStatus 500
          resSend (.error error))

/-! ## Running a handler -/

/-- What a request leaves behind. -/
structure Outcome where
  /-- The store after the request. -/
  store : Store
  /-- The chronological log of the request. -/
  log : List Event
  /-- The error that escaped the handler, if any. -/
  uncaught : Option String
deriving DecidableEq, Repr

/-- The state in which a handler starts: a fresh response object (status code
200, nothing sent). -/
def World.init (st : Store) : World := ⟨st, 0, 200, false, []⟩

/-- Run a handler on a store. -/
def run (handler : H Unit) (st : Store) : Outcome :=
  match handler (World.init st) with
  | .ok _ w => ⟨w.store, w.log, none⟩
  | .threw e w => ⟨w.store, w.log, some e⟩

/-- The responses of a log, in order. -/
def responsesOf : List Event → List Response
  | [] => []
  | .response r :: rest => r :: responsesOf rest
  | _ :: rest => responsesOf rest

/-- The statements handed to the store in a log, in order. -/
def statementsOf : List Event → List Stmt
  | [] => []
  | .stmt s _ :: rest => s :: statementsOf rest
  | _ :: rest => statementsOf rest

/-- The payloads for which `jwt.sign` was called in a log. -/
def signedOf : List Event → List (Nat × String)
  | [] => []
  | .sign id role :: rest => (id, role) :: signedOf rest
  | _ :: rest => signedOf rest

/-- The responses a request sent. -/
def Outcome.responses (o : Outcome) : List Response := responsesOf o.log

/-- The statements a request handed to the store. -/
def Outcome.statements (o : Outcome) : List Stmt := statementsOf o.log

/-! ## Properties read off a log -/

/-- The statuses with which the handlers report a failure. -/
def isFailureStatus (status : Nat) : Bool :=
  status == 400 || status == 401 || status == 404 || status == 500

/-- An entry of the log that hands a write statement to the store. -/
def Event.isWrite : Event → Bool
  | .stmt s _ => s.isWrite
  | _ => false

/-- Whether, somewhere in the log, a write statement is issued after a response
with a failure status. -/
def writeAfterFailure : List Event → Bool
  | [] => false
  | .response r :: rest =>
    (isFailureStatus r.status && rest.any Event.isWrite) || writeAfterFailure rest
  | _ :: rest => writeAfterFailure rest

/-- At most one attendance record per (session_id, etudiant_id) pair. -/
def onePerPair (rows : List Emargement) : Prop :=
  (rows.map fun e => (e.session_id, e.etudiant_id)).Nodup

instance (rows : List Emargement) : Decidable (onePerPair rows) := by
  unfold onePerPair
  infer_instance

/-- Pairwise distinct e-mails in table `users`. -/
def distinctEmails (rows : List User) : Prop :=
  (rows.map fun u => u.email).Nodup

instance (rows : List User) : Decidable (distinctEmails rows) := by
  unfold distinctEmails
  infer_instance

/-- The primary key of table `sessions`: no two rows share an id. -/
def sessionKeys (st : Store) : Prop :=
  (st.sessions.map fun s => s.id).Nodup

instance (st : Store) : Decidable (sessionKeys st) := by
  unfold sessionKeys
  infer_instance

/-! ## Concrete stores and environments -/

/-- A store with one student, one session owned by formateur 7, no attendance. -/
def demoStore : Store :=
  { users := [⟨1, "Ana", "a@x.com", "hashed:12345678", "etudiant"⟩],
    sessions := [⟨1, "Algebra", "2024-05-01", 7⟩],
    emargements := [],
    nextUserId := 2,
    nextSessionId := 2,
    nextEmargementId := 1 }

/-- The store `demoStore` after student 5 registered for session 1. -/
def attendedStore : Store :=
  { demoStore with emargements := [⟨1, 1, 5, true⟩], nextEmargementId := 2 }

/-- An environment in which nothing fails. -/
def reliable : Env :=
  { storeFails := fun _ => none,
    hash := fun p => .ok ("hashed:" ++ p),
    compare := fun p h => .ok (h == "hashed:" ++ p),
    sign := fun _ role => .ok ("signed:" ++ role) }

/-- An environment whose store rejects every call. -/
def storeDown : Env :=
  { reliable with storeFails := fun _ => some "Connection lost" }

/-- An environment in which only `jwt.sign` fails: the signing key is missing. -/
def signDown : Env :=
  { reliable with sign := fun _ _ => .error "secretOrPrivateKey must have a value" }

/-- An environment whose store rejects the second call of a request only. -/
def secondCallFails : Env :=
  { reliable with storeFails := fun n => if n = 1 then some "Connection lost" else none }

/-! ## Lemmas on the tables -/

theorem filter_id_singleton (l : List Session) (s : Session) (hs : s ∈ l)
    (hn : (l.map fun x => x.id).Nodup) :
    (l.filter fun x => x.id == s.id) = [s] := by
  induction l with
  | nil => simp at hs
  | cons a t ih =>
    simp only [List.map_cons, List.nodup_cons, List.mem_map, not_exists, not_and] at hn
    rcases List.mem_cons.mp hs with h | h
    · subst h
      have : (t.filter fun x => x.id == s.id) = [] := by
        simp only [List.filter_eq_nil_iff, beq_iff_eq]
        intro x hx hxe
        exact hn.1 x hx hxe
      simp [List.filter_cons, this]
    · have hne : a.id ≠ s.id := fun he => hn.1 s h he.symm
      simp [List.filter_cons, hne, ih h hn.2]

theorem filter_id_nil (l : List Session) (id : Nat) (h : ∀ s ∈ l, s.id ≠ id) :
    (l.filter fun x => x.id == id) = [] := by
  simp only [List.filter_eq_nil_iff, beq_iff_eq]
  intro x hx hxe
  exact h x hx hxe

/-! ## Outcomes of `DELETE /sessions/:id`, case by case -/

theorem deleteSession_wrong_role (env : Env) (st : Store) (user : Identity) (id : Nat)
    (hr : user.role ≠ "formateur") :
    run (deleteSession env user id) st =
      ⟨st, [.response ⟨401, .message "Unauthorized, need -> role: \x27formateur\x27"⟩],
        none⟩ := by
  simp [run, deleteSession, hr, World.init, resStatus, resSend, bind, H.bind]

theorem deleteSession_lookup_fails (env : Env) (st : Store) (user : Identity) (id : Nat)
    (e : String) (hr : user.role = "formateur") (h0 : env.storeFails 0 = some e) :
    run (deleteSession env user id) st =
      ⟨st, [.stmt (.selectFormateurIdById id) false, .response ⟨500, .error e⟩], none⟩ := by
  simp [run, deleteSession, tryCatch, selectFormateurIdById, storeCall, hr, h0,
    World.init, resStatus, resSend, bind, H.bind, pure, H.pure]

theorem deleteSession_absent (env : Env) (st : Store) (user : Identity) (id : Nat)
    (hr : user.role = "formateur") (h0 : env.storeFails 0 = none)
    (ha : ∀ s ∈ st.sessions, s.id ≠ id) :
    run (deleteSession env user id) st =
      ⟨st, [.stmt (.selectFormateurIdById id) true,
        .response ⟨404, .text "Session not found"⟩], none⟩ := by
  simp [run, deleteSession, tryCatch, selectFormateurIdById, storeCall, hr, h0,
    World.init, resStatus, resSend, bind, H.bind, pure, H.pure, filter_id_nil _ _ ha]

theorem deleteSession_not_owner (env : Env) (st : Store) (user : Identity) (s : Session)
    (hs : s ∈ st.sessions) (hk : sessionKeys st)
    (hr : user.role = "formateur") (h0 : env.storeFails 0 = none)
    (ho : s.formateur_id ≠ user.id) :
    run (deleteSession env user s.id) st =
      ⟨st, [.stmt (.selectFormateurIdById s.id) true,
        .response ⟨401, .text "Not authorized"⟩], none⟩ := by
  simp [run, deleteSession, tryCatch, selectFormateurIdById, storeCall, hr, h0,
    World.init, resStatus, resSend, bind, H.bind, pure, H.pure,
    filter_id_singleton _ _ hs hk, ho]

theorem deleteSession_owner (env : Env) (st : Store) (user : Identity) (s : Session)
    (hs : s ∈ st.sessions) (hk : sessionKeys st)
    (hr : user.role = "formateur") (h0 : env.storeFails 0 = none)
    (h1 : env.storeFails 1 = none) (ho : s.formateur_id = user.id) :
    run (deleteSession env user s.id) st =
      ⟨{ st with sessions := st.sessions.filter fun x => !(x.id == s.id) },
        [.stmt (.selectFormateurIdById s.id) true, .stmt (.deleteSession s.id) true,
          .response ⟨200, .empty⟩], none⟩ := by
  simp [run, deleteSession, tryCatch, selectFormateurIdById, deleteSessionById,
    storeCall, hr, h0, h1, World.init, resStatus, resSend, bind, H.bind, pure, H.pure,
    filter_id_singleton _ _ hs hk, ho]

/-! ## Outcomes of `GET /sessions/:id/emargement`, case by case -/

theorem getEmargement_wrong_role (env : Env) (st : Store) (user : Identity) (id : Nat)
    (hr : user.role ≠ "formateur") :
    run (getEmargement env user id) st =
      ⟨st, [.response ⟨401, .message "Not authorized, need -> role: \x27formateur\x27"⟩],
        none⟩ := by
  simp [run, getEmargement, hr, World.init, resStatus, resSend, bind, H.bind]

theorem getEmargement_lookup_fails (env : Env) (st : Store) (user : Identity) (id : Nat)
    (e : String) (hr : user.role = "formateur") (h0 : env.storeFails 0 = some e) :
    run (getEmargement env user id) st =
      ⟨st, [.stmt (.selectSessionById id) false, .response ⟨500, .error e⟩], none⟩ := by
  simp [run, getEmargement, tryCatch, selectSessionById, storeCall, hr, h0,
    World.init, resStatus, resSend, bind, H.bind, pure, H.pure]

theorem getEmargement_absent (env : Env) (st : Store) (user : Identity) (id : Nat)
    (hr : user.role = "formateur") (h0 : env.storeFails 0 = none)
    (ha : ∀ s ∈ st.sessions, s.id ≠ id) :
    run (getEmargement env user id) st =
      ⟨st, [.stmt (.selectSessionById id) true,
        .response ⟨404, .text "Session not found"⟩], none⟩ := by
  simp [run, getEmargement, tryCatch, selectSessionById, storeCall, hr, h0,
    World.init, resStatus, resSend, bind, H.bind, pure, H.pure, filter_id_nil _ _ ha]

theorem getEmargement_not_owner (env : Env) (st : Store) (user : Identity) (s : Session)
    (hs : s ∈ st.sessions) (hk : sessionKeys st)
    (hr : user.role = "formateur") (h0 : env.storeFails 0 = none)
    (ho : s.formateur_id ≠ user.id) :
    run (getEmargement env user s.id) st =
      ⟨st, [.stmt (.selectSessionById s.id) true,
        .response ⟨401, .text "Unauthorized"⟩], none⟩ := by
  simp [run, getEmargement, tryCatch, selectSessionById, storeCall, hr, h0,
    World.init, resStatus, resSend, bind, H.bind, pure, H.pure,
    filter_id_singleton _ _ hs hk, Ne.symm ho]

/-- The handler of `PUT /sessions/:id` throws on its first statement, whatever
the request: nothing is sent and no statement reaches the store. -/
theorem putSession_throws (env : Env) (st : Store) (user : Identity) (id : Nat)
    (data : SessionData) :
    run (putSession env user id data) st = ⟨st, [], some "az is not defined"⟩ := by
  simp [run, putSession, az, World.init, bind, H.bind]

/-! ## Ownership of sessions -/

/-- Claim C1, as the code has it for `DELETE /sessions/:id`. Let `s` be a
session of a store with unique session ids, and let the caller be anyone but a
formateur who owns `s` (another role, or a formateur with another id). Then the
request leaves the whole store as it was and hands no write statement to the
store. A caller who is not a formateur is answered 401 with no store call at
all; a formateur who is not the owner is answered 401 when the ownership lookup
succeeds and 500 when the lookup is rejected. -/
theorem deleteSession_by_non_owner (env : Env) (st : Store) (s : Session) (user : Identity)
    (hs : s ∈ st.sessions) (hk : sessionKeys st)
    (hu : user.role ≠ "formateur" ∨ s.formateur_id ≠ user.id) :
    (run (deleteSession env user s.id) st).store = st ∧
    (∀ q ∈ (run (deleteSession env user s.id) st).statements, q.isWrite = false) ∧
    (user.role ≠ "formateur" →
      (run (deleteSession env user s.id) st).responses =
          [⟨401, .message "Unauthorized, need -> role: \x27formateur\x27"⟩] ∧
        (run (deleteSession env user s.id) st).statements = []) ∧
    (user.role = "formateur" → env.storeFails 0 = none →
      (run (deleteSession env user s.id) st).responses = [⟨401, .text "Not authorized"⟩]) ∧
    (user.role = "formateur" → ∀ e, env.storeFails 0 = some e →
      (run (deleteSession env user s.id) st).responses = [⟨500, .error e⟩]) := by
  by_cases hr : user.role = "formateur"
  · have ho : s.formateur_id ≠ user.id := by
      rcases hu with h | h
      · exact absurd hr h
      · exact h
    cases h0 : env.storeFails 0 with
    | some e =>
      rw [deleteSession_lookup_fails env st user s.id e hr h0]
      simp [Outcome.responses, Outcome.statements, responsesOf, statementsOf, Stmt.isWrite, hr]
    | none =>
      rw [deleteSession_not_owner env st user s hs hk hr h0 ho]
      simp [Outcome.responses, Outcome.statements, responsesOf, statementsOf, Stmt.isWrite, hr]
  · rw [deleteSession_wrong_role env st user s.id hr]
    simp [Outcome.responses, Outcome.statements, responsesOf, statementsOf, hr]

/-- Claim C1, instance: in `demoStore` (session 1 owned by formateur 7) a
`DELETE /sessions/1` by formateur 8 with a working store is answered 401 and
the store is as before. -/
theorem deleteSession_by_non_owner_witness :
    (⟨1, "Algebra", "2024-05-01", 7⟩ : Session) ∈ demoStore.sessions ∧
    sessionKeys demoStore ∧
    (run (deleteSession reliable ⟨8, "formateur"⟩ 1) demoStore).store = demoStore ∧
    (run (deleteSession reliable ⟨8, "formateur"⟩ 1) demoStore).responses =
      [⟨401, .text "Not authorized"⟩] :=
  have h := deleteSession_by_non_owner reliable demoStore ⟨1, "Algebra", "2024-05-01", 7⟩
    ⟨8, "formateur"⟩ (by decide) (by decide) (Or.inr (by decide))
  ⟨by decide, by decide, h.1, h.2.2.2.1 rfl rfl⟩

/-- Claim C1 fails as stated: in `demoStore`, session 1 is owned by formateur 7;
a `DELETE /sessions/1` by formateur 8 whose ownership lookup is rejected by the
store is answered 500, not 401. -/
theorem deleteSession_by_non_owner_store_down :
    (⟨1, "Algebra", "2024-05-01", 7⟩ : Session) ∈ demoStore.sessions ∧
    (run (deleteSession storeDown ⟨8, "formateur"⟩ 1) demoStore).responses =
      [⟨500, .error "Connection lost"⟩] := by
  decide

/-- Claim C2, the failing request: in `demoStore`, `PUT /sessions/1` by the
owner (formateur 7) with a valid body and a working store. The handler throws
`az is not defined` before anything else: no response is sent, no statement is
issued, and session 1 keeps its title and date. -/
theorem putSession_by_owner_throws :
    run (putSession reliable ⟨7, "formateur"⟩ 1 ⟨"Geometry", "2024-06-01"⟩) demoStore =
      ⟨demoStore, [], some "az is not defined"⟩ := by
  decide

/-- The `DELETE` half of claim C2: the owner of `s`, in a store with unique
session ids and with no store call failing, is answered 200; afterwards `s` is
gone and the sessions table is the old one without `s`, in the same order (so
every other session is unchanged). -/
theorem deleteSession_by_owner (env : Env) (st : Store) (s : Session) (user : Identity)
    (hs : s ∈ st.sessions) (hk : sessionKeys st)
    (hr : user.role = "formateur") (ho : s.formateur_id = user.id)
    (hok : ∀ n, env.storeFails n = none) :
    (run (deleteSession env user s.id) st).responses = [⟨200, .empty⟩] ∧
    s ∉ (run (deleteSession env user s.id) st).store.sessions ∧
    (run (deleteSession env user s.id) st).store.sessions =
      st.sessions.filter (fun x => decide (x ≠ s)) ∧
    (∀ x, x ≠ s →
      (x ∈ (run (deleteSession env user s.id) st).store.sessions ↔ x ∈ st.sessions)) ∧
    (run (deleteSession env user s.id) st).store.users = st.users ∧
    (run (deleteSession env user s.id) st).store.emargements = st.emargements := by
  rw [deleteSession_owner env st user s hs hk hr (hok 0) (hok 1) ho]
  have hfilter : (st.sessions.filter fun x => !(x.id == s.id)) =
      st.sessions.filter (fun x => decide (x ≠ s)) := by
    apply List.filter_congr
    intro x hx
    by_cases hxs : x = s
    · simp [hxs]
    · have : x.id ≠ s.id := by
        intro he
        have h1 : x ∈ st.sessions.filter (fun y => y.id == s.id) := by
          simp [List.mem_filter, hx, he]
        rw [filter_id_singleton _ _ hs hk] at h1
        exact hxs (by simpa using h1)
      simp [hxs, this]
  simp only [Outcome.responses, responsesOf, hfilter, List.mem_filter]
  refine ⟨trivial, ?_, trivial, ?_, trivial, trivial⟩
  · simp
  · intro x hx
    simp [hx]

/-- Instance of `deleteSession_by_owner`: formateur 7 deletes session 1 of
`demoStore`. -/
theorem deleteSession_by_owner_witness :
    (run (deleteSession reliable ⟨7, "formateur"⟩ 1) demoStore).responses = [⟨200, .empty⟩] ∧
    (run (deleteSession reliable ⟨7, "formateur"⟩ 1) demoStore).store.sessions = [] :=
  have h := deleteSession_by_owner reliable demoStore ⟨1, "Algebra", "2024-05-01", 7⟩
    ⟨7, "formateur"⟩ (by decide) (by decide) rfl rfl (fun _ => rfl)
  ⟨h.1, h.2.2.1.trans (by decide)⟩

/-! ## Order of the checks -/

/-- Claim C3, as the code has it for `DELETE /sessions/:id` and
`GET /sessions/:id/emargement`. For every store, caller and id:
* a caller whose role is not `formateur` gets the role-mismatch response (401)
  and no statement reaches the store, whether or not the id exists;
* for a formateur whose lookup succeeds: if no session has the id the answer is
  404, whoever the caller is; if a session (of a store with unique session ids)
  has the id and another owner, the answer is the ownership failure (401);
* for a formateur whose lookup is rejected with error `e` the answer is 500. -/
theorem guard_order (env : Env) (st : Store) (user : Identity) (id : Nat) :
    (user.role ≠ "formateur" →
      run (deleteSession env user id) st =
          ⟨st, [.response ⟨401, .message "Unauthorized, need -> role: \x27formateur\x27"⟩],
            none⟩ ∧
        run (getEmargement env user id) st =
          ⟨st, [.response ⟨401,
            .message "Not authorized, need -> role: \x27formateur\x27"⟩], none⟩) ∧
    (user.role = "formateur" → env.storeFails 0 = none →
      (∀ s ∈ st.sessions, s.id ≠ id) →
      (run (deleteSession env user id) st).responses = [⟨404, .text "Session not found"⟩] ∧
        (run (getEmargement env user id) st).responses =
          [⟨404, .text "Session not found"⟩]) ∧
    (user.role = "formateur" → env.storeFails 0 = none → sessionKeys st →
      ∀ s ∈ st.sessions, s.id = id → s.formateur_id ≠ user.id →
      (run (deleteSession env user id) st).responses = [⟨401, .text "Not authorized"⟩] ∧
        (run (getEmargement env user id) st).responses = [⟨401, .text "Unauthorized"⟩]) ∧
    (user.role = "formateur" → ∀ e, env.storeFails 0 = some e →
      (run (deleteSession env user id) st).responses = [⟨500, .error e⟩] ∧
        (run (getEmargement env user id) st).responses = [⟨500, .error e⟩]) := by
  refine ⟨fun hr => ⟨deleteSession_wrong_role env st user id hr,
      getEmargement_wrong_role env st user id hr⟩, ?_, ?_, ?_⟩
  · intro hr h0 ha
    rw [deleteSession_absent env st user id hr h0 ha,
      getEmargement_absent env st user id hr h0 ha]
    simp [Outcome.responses, responsesOf]
  · intro hr h0 hk s hs hid ho
    subst hid
    rw [deleteSession_not_owner env st user s hs hk hr h0 ho,
      getEmargement_not_owner env st user s hs hk hr h0 ho]
    simp [Outcome.responses, responsesOf]
  · intro hr e h0
    rw [deleteSession_lookup_fails env st user id e hr h0,
      getEmargement_lookup_fails env st user id e hr h0]
    simp [Outcome.responses, responsesOf]

/-- Claim C3, instances in `demoStore` with a working store: a student asking
for the absent session 99 gets the role-mismatch 401 and no store call; any
formateur asking for session 99 gets 404; formateur 8 asking for session 1 of
formateur 7 gets the ownership 401. -/
theorem guard_order_witness :
    (run (deleteSession reliable ⟨5, "etudiant"⟩ 99) demoStore).statements = [] ∧
    (run (deleteSession reliable ⟨8, "formateur"⟩ 99) demoStore).responses =
      [⟨404, .text "Session not found"⟩] ∧
    (run (getEmargement reliable ⟨8, "formateur"⟩ 1) demoStore).responses =
      [⟨401, .text "Unauthorized"⟩] :=
  ⟨by rw [((guard_order reliable demoStore ⟨5, "etudiant"⟩ 99).1 (by decide)).1]; rfl,
    ((guard_order reliable demoStore ⟨8, "formateur"⟩ 99).2.1 rfl rfl (by decide)).1,
    ((guard_order reliable demoStore ⟨8, "formateur"⟩ 1).2.2.1 rfl rfl (by decide)
      ⟨1, "Algebra", "2024-05-01", 7⟩ (by decide) rfl (by decide)).2⟩

/-- Claim C3 fails as stated: in `demoStore` no session has id 99; formateur 8
asks for `GET /sessions/99/emargement` and `DELETE /sessions/99` while the store
rejects the lookup: both are answered 500, not 404. -/
theorem guard_order_store_down :
    (∀ s ∈ demoStore.sessions, s.id ≠ 99) ∧
    (run (getEmargement storeDown ⟨8, "formateur"⟩ 99) demoStore).responses =
      [⟨500, .error "Connection lost"⟩] ∧
    (run (deleteSession storeDown ⟨8, "formateur"⟩ 99) demoStore).responses =
      [⟨500, .error "Connection lost"⟩] := by
  decide

/-! ## Signup -/

/-- Claim C5. A signup payload whose role is neither `formateur` nor `etudiant`
is answered 400; no statement reaches the store (in particular no `INSERT`) and
the store, with its users table, is unchanged. -/
theorem signup_rejects_other_roles (env : Env) (st : Store) (data : SignupData)
    (h1 : data.role ≠ "formateur") (h2 : data.role ≠ "etudiant") :
    (run (signup env data) st).responses =
      [⟨400, .message "The \x27role\x27 must be \x27formateur\x27 or \x27etudiant\x27"⟩] ∧
    (run (signup env data) st).statements = [] ∧
    (run (signup env data) st).store = st := by
  simp [run, signup, h1, h2, World.init, resStatus, resSend, bind, H.bind, Outcome.responses,
    Outcome.statements, responsesOf, statementsOf]

/-- Claim C5, instance: role `admin`. -/
theorem signup_rejects_other_roles_witness :
    (run (signup reliable ⟨"Ana", "b@x.com", "12345678", "admin"⟩) demoStore).responses =
      [⟨400, .message "The \x27role\x27 must be \x27formateur\x27 or \x27etudiant\x27"⟩] ∧
    (run (signup reliable ⟨"Ana", "b@x.com", "12345678", "admin"⟩) demoStore).statements = [] ∧
    (run (signup reliable ⟨"Ana", "b@x.com", "12345678", "admin"⟩) demoStore).store =
      demoStore :=
  signup_rejects_other_roles reliable demoStore ⟨"Ana", "b@x.com", "12345678", "admin"⟩
    (by decide) (by decide)

/-- The lookup by e-mail finds nothing exactly when no stored user has the e-mail. -/
theorem filter_email_nil (l : List User) (email : String)
    (h : ∀ u ∈ l, u.email ≠ email) :
    (l.filter fun u => u.email == email) = [] := by
  simp only [List.filter_eq_nil_iff, beq_iff_eq]
  intro u hu he
  exact h u hu he

/-- Claim C4, as the code has it. Take a signup payload whose role passes the
role check of the handler (as every payload that passes validation does; the
constraints of `signupSchema` play no part in what the handler does) and a
store in which no user has its e-mail. Let no store call fail, let hashing the
password give `hashed`, let the hasher verify the password against `hashed`,
and let `jwt.sign` return `token` for the payload `{id, role}` with `id` the id
the store assigns. Then signup is answered 200 with `{id, name, email, role}`,
and a login with the same e-mail and password on the resulting store is
answered 200 with `token`: `jwt.sign` is called once, with exactly that id and
the role given at signup. -/
theorem signup_then_login (envS envL : Env) (st : Store)
    (data : SignupData) (hashed token : String)
    (hr : roleAccepted data.role = true)
    (hfresh : ∀ u ∈ st.users, u.email ≠ data.email)
    (hS : ∀ n, envS.storeFails n = none) (hL : ∀ n, envL.storeFails n = none)
    (hh : envS.hash data.password = .ok hashed)
    (hc : envL.compare data.password hashed = .ok true)
    (hsig : envL.sign st.nextUserId data.role = .ok token) :
    (run (signup envS data) st).responses =
      [⟨200, .user st.nextUserId data.name data.email data.role⟩] ∧
    (run (signup envS data) st).store.users =
      st.users ++ [⟨st.nextUserId, data.name, data.email, hashed, data.role⟩] ∧
    (run (login envL ⟨data.email, data.password⟩) (run (signup envS data) st).store).responses =
      [⟨200, .token token⟩] ∧
    signedOf (run (login envL ⟨data.email, data.password⟩)
      (run (signup envS data) st).store).log = [(st.nextUserId, data.role)] := by
  have hr' : (data.role != "formateur" && data.role != "etudiant") = false := by
    unfold roleAccepted at hr
    revert hr
    cases (data.role != "formateur" && data.role != "etudiant") <;> simp
  have hsign : run (signup envS data) st =
      ⟨{ st with
          users := st.users ++ [⟨st.nextUserId, data.name, data.email, hashed, data.role⟩],
          nextUserId := st.nextUserId + 1 },
        [.stmt (.selectUsersByEmail data.email) true, .hash data.password,
          .stmt (.insertUser data.name data.email hashed data.role) true,
          .response ⟨200, .user st.nextUserId data.name data.email data.role⟩], none⟩ := by
    simp [run, signup, hr', tryCatch, selectUsersByEmail, insertUser, storeCall, hS 0, hS 1,
      filter_email_nil _ _ hfresh, hh, bcryptHash, World.init, resStatus, resSend, bind,
      H.bind, pure, H.pure]
  rw [hsign]
  simp [run, login, tryCatch, selectCredentialsByEmail, storeCall, hL 0, bcryptCompare,
    jwtSign, List.filter_append, filter_email_nil _ _ hfresh, hc, hsig, World.init,
    resStatus, resSend, bind, H.bind, Outcome.responses, responsesOf, signedOf]

/-- Claim C4, instance: Ana signs up as `etudiant` in a store where `b@x.com` is
free, receives id 2, and logs in with the token signed for id 2 and her role. -/
theorem signup_then_login_witness :
    (run (signup reliable ⟨"Ana", "b@x.com", "12345678", "etudiant"⟩) demoStore).responses =
      [⟨200, .user 2 "Ana" "b@x.com" "etudiant"⟩] ∧
    (run (login reliable ⟨"b@x.com", "12345678"⟩)
      (run (signup reliable ⟨"Ana", "b@x.com", "12345678", "etudiant"⟩)
        demoStore).store).responses = [⟨200, .token "signed:etudiant"⟩] :=
  have h := signup_then_login reliable reliable demoStore
    ⟨"Ana", "b@x.com", "12345678", "etudiant"⟩ "hashed:12345678" "signed:etudiant"
    (by decide) (by decide) (fun _ => rfl) (fun _ => rfl) rfl rfl rfl
  ⟨h.1, h.2.2.1⟩

/-- Claim C4 fails as stated: the payload passes `signupSchema` and the role
check, `b@x.com` is free in `demoStore`, no store call fails and the hasher
hashes and verifies the password; signup is answered 200 with id 2. In the
login that follows, with the same e-mail and password, `jwt.sign` throws (the
signing key is missing): the `catch` of lines 107-111 answers 500 and no token
is returned. -/
theorem login_after_signup_sign_throws :
    signupSchema (fun e => e.data.contains '@')
      ⟨"Ana", "b@x.com", "12345678", "etudiant"⟩ = true ∧
    roleAccepted "etudiant" = true ∧
    (∀ u ∈ demoStore.users, u.email ≠ "b@x.com") ∧
    (∀ n, signDown.storeFails n = none) ∧
    signDown.hash "12345678" = .ok "hashed:12345678" ∧
    signDown.compare "12345678" "hashed:12345678" = .ok true ∧
    (run (signup signDown ⟨"Ana", "b@x.com", "12345678", "etudiant"⟩) demoStore).responses =
      [⟨200, .user 2 "Ana" "b@x.com" "etudiant"⟩] ∧
    (run (login signDown ⟨"b@x.com", "12345678"⟩)
      (run (signup signDown ⟨"Ana", "b@x.com", "12345678", "etudiant"⟩)
        demoStore).store).responses =
      [⟨500, .error "secretOrPrivateKey must have a value"⟩] :=
  ⟨by decide, by decide, by decide, fun _ => rfl, rfl, rfl, by decide, by decide⟩

/-- Claim C9, as the code has it. In a store with pairwise distinct e-mails, a
signup request leaves the e-mails pairwise distinct whatever the outcome of the
store and hashing calls. If a stored user already has the payload's e-mail, the
store is unchanged, and the answer is 401 when the role passes the role check
and the lookup succeeds. -/
theorem signup_keeps_emails_distinct (env : Env) (st : Store) (data : SignupData)
    (hd : distinctEmails st.users) :
    distinctEmails (run (signup env data) st).store.users ∧
    ((∃ u ∈ st.users, u.email = data.email) →
      (run (signup env data) st).store = st ∧
      (roleAccepted data.role = true → env.storeFails 0 = none →
        (run (signup env data) st).responses = [⟨401, .message "Unauthorized"⟩])) := by
  unfold distinctEmails at *
  by_cases hr : (data.role != "formateur" && data.role != "etudiant") = false
  · cases h0 : env.storeFails 0 with
    | some e =>
      simp [run, signup, hr, tryCatch, selectUsersByEmail, storeCall, h0, World.init,
        resStatus, resSend, bind, H.bind, pure, H.pure, hd]
    | none =>
      cases hrows : (st.users.filter fun u => u.email == data.email) with
      | cons a t =>
        simp [run, signup, hr, tryCatch, selectUsersByEmail, storeCall, h0, hrows,
          World.init, resStatus, resSend, bind, H.bind, pure, H.pure, hd, Outcome.responses,
          responsesOf]
      | nil =>
        have hfresh : ∀ u ∈ st.users, u.email ≠ data.email := by
          intro u hu he
          have : u ∈ (st.users.filter fun u => u.email == data.email) := by
            simp [List.mem_filter, hu, he]
          rw [hrows] at this
          simp at this
        have hno : ¬ ∃ u ∈ st.users, u.email = data.email := by
          rintro ⟨u, hu, he⟩
          exact hfresh u hu he
        cases hh : env.hash data.password with
        | error e =>
          simp [run, signup, hr, tryCatch, selectUsersByEmail, storeCall, h0, hrows, hh,
            bcryptHash, World.init, resStatus, resSend, bind, H.bind, pure, H.pure, hd, hno]
        | ok hashed =>
          cases h1 : env.storeFails 1 with
          | some e =>
            simp [run, signup, hr, tryCatch, selectUsersByEmail, insertUser, storeCall, h0,
              h1, hrows, hh, bcryptHash, World.init, resStatus, resSend, bind, H.bind, pure,
              H.pure, hd, hno]
          | none =>
            simp [run, signup, hr, tryCatch, selectUsersByEmail, insertUser, storeCall, h0,
              h1, hrows, hh, bcryptHash, World.init, resStatus, resSend, bind, H.bind, pure,
              H.pure, hno]
            rw [List.nodup_append]
            refine ⟨hd, by simp, ?_⟩
            simp only [List.Disjoint, List.mem_map, List.mem_singleton]
            rintro x ⟨u, hu, rfl⟩ he
            exact hfresh u hu he
  · have hr' : (data.role != "formateur" && data.role != "etudiant") = true := by
      simpa using hr
    have hacc : roleAccepted data.role = false := by simp [roleAccepted, hr']
    simp [run, signup, hr', World.init, resStatus, resSend, bind, H.bind, hd, hacc]

/-- Claim C9, instance: `demoStore` holds `a@x.com`; a second signup with that
e-mail is answered 401 and the store is unchanged. -/
theorem signup_keeps_emails_distinct_witness :
    distinctEmails demoStore.users ∧
    (run (signup reliable ⟨"Ana", "a@x.com", "12345678", "etudiant"⟩) demoStore).store =
      demoStore ∧
    (run (signup reliable ⟨"Ana", "a@x.com", "12345678", "etudiant"⟩) demoStore).responses =
      [⟨401, .message "Unauthorized"⟩] :=
  have h := (signup_keeps_emails_distinct reliable demoStore
    ⟨"Ana", "a@x.com", "12345678", "etudiant"⟩ (by decide)).2
    ⟨⟨1, "Ana", "a@x.com", "hashed:12345678", "etudiant"⟩, by decide, rfl⟩
  ⟨by decide, h.1, h.2 (by decide) rfl⟩

/-- Claim C9 fails as stated: `demoStore` holds a user with e-mail `a@x.com`; a
signup payload with that e-mail and role `admin` (which passes `signupSchema`)
is answered 400, not 401. -/
theorem signup_taken_email_other_role :
    (∃ u ∈ demoStore.users, u.email = "a@x.com") ∧
    signupSchema (fun e => e.data.contains '@') ⟨"Ana", "a@x.com", "12345678", "admin"⟩ = true ∧
    (run (signup reliable ⟨"Ana", "a@x.com", "12345678", "admin"⟩) demoStore).responses =
      [⟨400, .message "The \x27role\x27 must be \x27formateur\x27 or \x27etudiant\x27"⟩] := by
  decide

/-! ## Login -/

/-- Claim C6, as the code has it. Let the password verify against the stored
hash of no user with the given e-mail (in particular: no stored user has the
e-mail). Then `jwt.sign` is never called, no response carries a token and the
store is unchanged, whatever the store does; the answer is 401 when the lookup
succeeds and 500 when the store rejects the lookup. -/
theorem login_wrong_password (env : Env) (st : Store) (data : LoginData)
    (hw : ∀ u ∈ st.users, u.email = data.email →
      env.compare data.password u.password = .ok false) :
    signedOf (run (login env data) st).log = [] ∧
    (∀ r ∈ (run (login env data) st).responses, ∀ t, r.body ≠ .token t) ∧
    (run (login env data) st).store = st ∧
    (env.storeFails 0 = none →
      (run (login env data) st).responses = [⟨401, .text "Unauthorized"⟩]) ∧
    (∀ e, env.storeFails 0 = some e →
      (run (login env data) st).responses = [⟨500, .error e⟩]) := by
  cases h0 : env.storeFails 0 with
  | some e =>
    simp [run, login, tryCatch, selectCredentialsByEmail, storeCall, h0, World.init,
      resStatus, resSend, bind, H.bind, Outcome.responses, responsesOf, signedOf]
  | none =>
    cases hrows : (st.users.filter fun u => u.email == data.email) with
    | nil =>
      simp [run, login, tryCatch, selectCredentialsByEmail, storeCall, h0, hrows, World.init,
        resStatus, resSend, bind, H.bind, Outcome.responses, responsesOf, signedOf]
    | cons a t =>
      have ha : a ∈ (st.users.filter fun u => u.email == data.email) := by
        rw [hrows]
        exact List.mem_cons_self a t
      have ha' : a ∈ st.users ∧ a.email = data.email := by
        simpa [List.mem_filter] using ha
      have hc := hw a ha'.1 ha'.2
      simp [run, login, tryCatch, selectCredentialsByEmail, storeCall, h0, hrows, hc,
        bcryptCompare, World.init, resStatus, resSend, bind, H.bind, Outcome.responses,
        responsesOf, signedOf]

/-- Claim C6, instance: a wrong password for `a@x.com` in `demoStore`, with a
working store, is answered 401 and nothing is signed. -/
theorem login_wrong_password_witness :
    signedOf (run (login reliable ⟨"a@x.com", "87654321"⟩) demoStore).log = [] ∧
    (run (login reliable ⟨"a@x.com", "87654321"⟩) demoStore).responses =
      [⟨401, .text "Unauthorized"⟩] :=
  have h := login_wrong_password reliable demoStore ⟨"a@x.com", "87654321"⟩
    (by
      intro u hu he
      have hu' : u = ⟨1, "Ana", "a@x.com", "hashed:12345678", "etudiant"⟩ := by
        simpa [demoStore] using hu
      subst hu'
      rfl)
  ⟨h.1, h.2.2.2.1 rfl⟩

/-- Claim C6 fails as stated: `demoStore` holds a user with e-mail `a@x.com`
whose stored hash the password `87654321` does not verify against; when the
store rejects the lookup, the login is answered 500, not 401. -/
theorem login_wrong_password_store_down :
    (∃ u ∈ demoStore.users, u.email = "a@x.com" ∧
      storeDown.compare "87654321" u.password = .ok false) ∧
    (run (login storeDown ⟨"a@x.com", "87654321"⟩) demoStore).responses =
      [⟨500, .error "Connection lost"⟩] :=
  ⟨⟨⟨1, "Ana", "a@x.com", "hashed:12345678", "etudiant"⟩, by decide, rfl, rfl⟩, by decide⟩

/-! ## Attendance -/

theorem filter_session_length (l : List Session) (id : Nat) (h : ∃ s ∈ l, s.id = id) :
    ((l.filter fun s => s.id == id).length == 0) = false := by
  obtain ⟨s, hs, hid⟩ := h
  have hm : s ∈ l.filter fun s => s.id == id := by
    simp [List.mem_filter, hs, hid]
  cases hf : (l.filter fun s => s.id == id) with
  | nil => rw [hf] at hm; simp at hm
  | cons a t => simp

theorem filter_emargement_nil (l : List Emargement) (etudiant_id session_id : Nat)
    (h : ∀ e ∈ l, ¬ (e.etudiant_id = etudiant_id ∧ e.session_id = session_id)) :
    (l.filter fun e => e.etudiant_id == etudiant_id && e.session_id == session_id) = [] := by
  simp only [List.filter_eq_nil_iff, Bool.and_eq_true, beq_iff_eq]
  intro e he
  exact h e he

/-- Claim C8. For an existing session and a student with no attendance record
for it, with no store call failing, two `POST /sessions/:id/emargement` requests
in sequence: the first is answered 200 with `{id, session_id, etudiant_id,
presence}` (`etudiant_id` the caller's id) and appends exactly one record; the
second is answered 401 (the duplicate response), leaves the store as the first
left it and issues no write statement. -/
theorem emargement_twice (env1 env2 : Env) (st : Store) (user : Identity) (id : Nat)
    (d1 d2 : EmargementData)
    (hr : user.role = "etudiant") (hs : ∃ s ∈ st.sessions, s.id = id)
    (hnone : ∀ e ∈ st.emargements, ¬ (e.etudiant_id = user.id ∧ e.session_id = id))
    (h1 : ∀ n, env1.storeFails n = none) (h2 : ∀ n, env2.storeFails n = none) :
    (run (postEmargement env1 user id d1) st).responses =
      [⟨200, .emargement st.nextEmargementId id user.id d1.presence⟩] ∧
    (run (postEmargement env1 user id d1) st).store.emargements =
      st.emargements ++ [⟨st.nextEmargementId, id, user.id, d1.presence⟩] ∧
    (run (postEmargement env2 user id d2)
      (run (postEmargement env1 user id d1) st).store).responses =
      [⟨401, .message "The user is already suscribe to this session"⟩] ∧
    (run (postEmargement env2 user id d2)
      (run (postEmargement env1 user id d1) st).store).store =
      (run (postEmargement env1 user id d1) st).store ∧
    (∀ q ∈ (run (postEmargement env2 user id d2)
      (run (postEmargement env1 user id d1) st).store).statements, q.isWrite = false) := by
  have hfirst : run (postEmargement env1 user id d1) st =
      ⟨{ st with
          emargements := st.emargements ++ [⟨st.nextEmargementId, id, user.id, d1.presence⟩],
          nextEmargementId := st.nextEmargementId + 1 },
        [.stmt (.selectSessionById id) true, .stmt (.selectEmargement user.id id) true,
          .stmt (.insertEmargement id user.id d1.presence) true,
          .response ⟨200, .emargement st.nextEmargementId id user.id d1.presence⟩],
        none⟩ := by
    simp [run, postEmargement, hr, tryCatch, selectSessionById, selectEmargement,
      insertEmargement, storeCall, h1 0, h1 1, h1 2, filter_session_length _ _ hs,
      filter_emargement_nil _ _ _ hnone, World.init, resStatus, resSend, bind, H.bind, pure,
      H.pure]
  rw [hfirst]
  simp [run, postEmargement, hr, tryCatch, selectSessionById, selectEmargement, storeCall,
    h2 0, h2 1, filter_session_length _ _ hs, filter_emargement_nil _ _ _ hnone,
    List.filter_append, World.init, resStatus, resSend, bind, H.bind, pure, H.pure,
    Outcome.responses, Outcome.statements, responsesOf, statementsOf, Stmt.isWrite]

/-- Claim C8, instance: student 5 registers twice for session 1 of `demoStore`. -/
theorem emargement_twice_witness :
    (run (postEmargement reliable ⟨5, "etudiant"⟩ 1 ⟨true⟩) demoStore).responses =
      [⟨200, .emargement 1 1 5 true⟩] ∧
    (run (postEmargement reliable ⟨5, "etudiant"⟩ 1 ⟨false⟩)
      (run (postEmargement reliable ⟨5, "etudiant"⟩ 1 ⟨true⟩) demoStore).store).responses =
      [⟨401, .message "The user is already suscribe to this session"⟩] :=
  have h := emargement_twice reliable reliable demoStore ⟨5, "etudiant"⟩ 1 ⟨true⟩ ⟨false⟩ rfl
    ⟨⟨1, "Algebra", "2024-05-01", 7⟩, by decide, rfl⟩ (by decide) (fun _ => rfl)
    (fun _ => rfl)
  ⟨h.1, h.2.2.1⟩

/-- Claim C7, the failing request. In `attendedStore` student 5 is registered
once for session 1, so the table has one record per pair. Student 5 posts again
while the store rejects the existence query (the second store call): the
handler answers 500, goes on to the `INSERT`, and the table ends with two
records for the pair (1, 5). -/
theorem postEmargement_duplicates_after_failed_check :
    onePerPair attendedStore.emargements ∧
    (run (postEmargement secondCallFails ⟨5, "etudiant"⟩ 1 ⟨true⟩)
      attendedStore).store.emargements = [⟨1, 1, 5, true⟩, ⟨2, 1, 5, true⟩] ∧
    ¬ onePerPair (run (postEmargement secondCallFails ⟨5, "etudiant"⟩ 1 ⟨true⟩)
      attendedStore).store.emargements := by
  decide

/-- Claim C10, the failing request. In `demoStore` student 5 posts attendance
for session 1 while the store rejects the existence query: the handler answers
500 and then issues the `INSERT`, which adds a record; the second attempt to
respond throws out of the handler. -/
theorem postEmargement_inserts_after_500 :
    run (postEmargement secondCallFails ⟨5, "etudiant"⟩ 1 ⟨true⟩) demoStore =
      ⟨{ demoStore with emargements := [⟨1, 1, 5, true⟩], nextEmargementId := 2 },
        [.stmt (.selectSessionById 1) true, .stmt (.selectEmargement 5 1) false,
          .response ⟨500, .error "Connection lost"⟩,
          .stmt (.insertEmargement 1 5 true) true],
        some "Cannot set headers after they are sent to the client"⟩ ∧
    writeAfterFailure (run (postEmargement secondCallFails ⟨5, "etudiant"⟩ 1 ⟨true⟩)
      demoStore).log = true := by
  decide

/-! ## One response, and no write after a failure response

What claim C10 asks of the mutating handlers, handler by handler. -/

/-- Signup sends exactly one response, lets no error escape, and issues no
write statement after a failure response, whatever the store and the hasher do. -/
theorem signup_single_response (env : Env) (st : Store) (data : SignupData) :
    (run (signup env data) st).responses.length = 1 ∧
    (run (signup env data) st).uncaught = none ∧
    writeAfterFailure (run (signup env data) st).log = false := by
  by_cases hr : (data.role != "formateur" && data.role != "etudiant") = false
  · cases h0 : env.storeFails 0 with
    | some e =>
      simp [run, signup, hr, tryCatch, selectUsersByEmail, storeCall, h0, World.init,
        resStatus, resSend, bind, H.bind, pure, H.pure, Outcome.responses, responsesOf,
        writeAfterFailure]
    | none =>
      cases hrows : (st.users.filter fun u => u.email == data.email) with
      | cons a t =>
        simp [run, signup, hr, tryCatch, selectUsersByEmail, storeCall, h0, hrows,
          World.init, resStatus, resSend, bind, H.bind, pure, H.pure, Outcome.responses,
          responsesOf, writeAfterFailure]
      | nil =>
        cases hh : env.hash data.password with
        | error e =>
          simp [run, signup, hr, tryCatch, selectUsersByEmail, storeCall, h0, hrows, hh,
            bcryptHash, World.init, resStatus, resSend, bind, H.bind, pure, H.pure,
            Outcome.responses, responsesOf, writeAfterFailure]
        | ok hashed =>
          cases h1 : env.storeFails 1 with
          | some e =>
            simp [run, signup, hr, tryCatch, selectUsersByEmail, insertUser, storeCall, h0,
              h1, hrows, hh, bcryptHash, World.init, resStatus, resSend, bind, H.bind, pure,
              H.pure, Outcome.responses, responsesOf, writeAfterFailure]
          | none =>
            simp [run, signup, hr, tryCatch, selectUsersByEmail, insertUser, storeCall, h0,
              h1, hrows, hh, bcryptHash, World.init, resStatus, resSend, bind, H.bind, pure,
              H.pure, Outcome.responses, responsesOf, writeAfterFailure, isFailureStatus]
  · have hr' : (data.role != "formateur" && data.role != "etudiant") = true := by
      simpa using hr
    simp [run, signup, hr', World.init, resStatus, resSend, bind, H.bind, Outcome.responses,
      responsesOf, writeAfterFailure]

/-- Session creation sends exactly one response, lets no error escape, and
issues no write statement after a failure response. -/
theorem createSession_single_response (env : Env) (st : Store) (user : Identity)
    (data : SessionData) :
    (run (createSession env user data) st).responses.length = 1 ∧
    (run (createSession env user data) st).uncaught = none ∧
    writeAfterFailure (run (createSession env user data) st).log = false := by
  by_cases hr : user.role = "formateur"
  · cases h0 : env.storeFails 0 with
    | some e =>
      simp [run, createSession, hr, tryCatch, insertSession, storeCall, h0, World.init,
        resStatus, resSend, bind, H.bind, Outcome.responses, responsesOf, writeAfterFailure]
    | none =>
      simp [run, createSession, hr, tryCatch, insertSession, storeCall, h0, World.init,
        resStatus, resSend, bind, H.bind, Outcome.responses, responsesOf, writeAfterFailure,
        isFailureStatus]
  · simp [run, createSession, hr, World.init, resStatus, resSend, bind, H.bind,
      Outcome.responses, responsesOf, writeAfterFailure]

/-- Session deletion sends exactly one response, lets no error escape, and
issues no write statement after a failure response. -/
theorem deleteSession_single_response (env : Env) (st : Store) (user : Identity) (id : Nat) :
    (run (deleteSession env user id) st).responses.length = 1 ∧
    (run (deleteSession env user id) st).uncaught = none ∧
    writeAfterFailure (run (deleteSession env user id) st).log = false := by
  by_cases hr : user.role = "formateur"
  · cases h0 : env.storeFails 0 with
    | some e =>
      simp [run, deleteSession, hr, tryCatch, selectFormateurIdById, storeCall,
        h0, World.init, resStatus, resSend, bind, H.bind, pure, H.pure, Outcome.responses,
        responsesOf, writeAfterFailure]
    | none =>
      cases hrows : (st.sessions.filter fun s => s.id == id) with
      | nil =>
        simp [run, deleteSession, hr, tryCatch, selectFormateurIdById, storeCall,
          h0, hrows, World.init, resStatus, resSend, bind, H.bind, pure, H.pure,
          Outcome.responses, responsesOf, writeAfterFailure]
      | cons a t =>
        by_cases ho : a.formateur_id = user.id
        · cases h1 : env.storeFails 1 with
          | some e =>
            simp [run, deleteSession, hr, tryCatch, selectFormateurIdById,
              deleteSessionById, storeCall, h0, h1, hrows, ho, World.init, resStatus,
              resSend, bind, H.bind, pure, H.pure, Outcome.responses, responsesOf,
              writeAfterFailure]
          | none =>
            simp [run, deleteSession, hr, tryCatch, selectFormateurIdById,
              deleteSessionById, storeCall, h0, h1, hrows, ho, World.init, resStatus,
              resSend, bind, H.bind, pure, H.pure, Outcome.responses, responsesOf,
              writeAfterFailure, isFailureStatus]
        · simp [run, deleteSession, hr, tryCatch, selectFormateurIdById,
            storeCall, h0, hrows, ho, World.init, resStatus, resSend, bind, H.bind, pure,
            H.pure, Outcome.responses, responsesOf, writeAfterFailure]
  · simp [run, deleteSession, hr, World.init, resStatus, resSend, bind, H.bind,
      Outcome.responses, responsesOf, writeAfterFailure]

/-- When the store does not reject the existence query (the second store call),
attendance registration sends exactly one response, lets no error escape,
issues no write statement after a failure response, and keeps the table at one
record per (session_id, etudiant_id) pair. -/
theorem postEmargement_when_check_succeeds (env : Env) (st : Store) (user : Identity)
    (id : Nat) (data : EmargementData) (h1 : env.storeFails 1 = none) :
    (run (postEmargement env user id data) st).responses.length = 1 ∧
    (run (postEmargement env user id data) st).uncaught = none ∧
    writeAfterFailure (run (postEmargement env user id data) st).log = false ∧
    (onePerPair st.emargements →
      onePerPair (run (postEmargement env user id data) st).store.emargements) := by
  unfold onePerPair
  by_cases hr : user.role = "etudiant"
  · cases h0 : env.storeFails 0 with
    | some e =>
      simp [run, postEmargement, hr, tryCatch, selectSessionById, storeCall, h0, World.init,
        resStatus, resSend, bind, H.bind, pure, H.pure, Outcome.responses, responsesOf,
        writeAfterFailure]
    | none =>
      cases hrows : (st.sessions.filter fun s => s.id == id) with
      | nil =>
        simp [run, postEmargement, hr, tryCatch, selectSessionById, storeCall, h0, hrows,
          World.init, resStatus, resSend, bind, H.bind, pure, H.pure, Outcome.responses,
          responsesOf, writeAfterFailure]
      | cons a t =>
        cases hdup : (st.emargements.filter fun e =>
            e.etudiant_id == user.id && e.session_id == id) with
        | cons b u =>
          simp [run, postEmargement, hr, tryCatch, selectSessionById, selectEmargement,
            storeCall, h0, h1, hrows, hdup, World.init, resStatus, resSend, bind, H.bind,
            pure, H.pure, Outcome.responses, responsesOf, writeAfterFailure]
        | nil =>
          have hnone : ∀ e ∈ st.emargements,
              ¬ (e.etudiant_id = user.id ∧ e.session_id = id) := by
            intro e he hpair
            have : e ∈ (st.emargements.filter fun e =>
                e.etudiant_id == user.id && e.session_id == id) := by
              simp [List.mem_filter, he, hpair.1, hpair.2]
            rw [hdup] at this
            simp at this
          cases h2 : env.storeFails 2 with
          | some e =>
            simp [run, postEmargement, hr, tryCatch, selectSessionById, selectEmargement,
              insertEmargement, storeCall, h0, h1, h2, hrows, hdup, World.init, resStatus,
              resSend, bind, H.bind, pure, H.pure, Outcome.responses, responsesOf,
              writeAfterFailure]
          | none =>
            simp [run, postEmargement, hr, tryCatch, selectSessionById, selectEmargement,
              insertEmargement, storeCall, h0, h1, h2, hrows, hdup, World.init, resStatus,
              resSend, bind, H.bind, pure, H.pure, Outcome.responses, responsesOf,
              writeAfterFailure, isFailureStatus]
            intro hinv
            rw [List.nodup_append]
            refine ⟨hinv, by simp, ?_⟩
            simp only [List.Disjoint, List.mem_map, List.mem_singleton]
            rintro x ⟨e, he, rfl⟩ hx
            simp only [Prod.mk.injEq] at hx
            exact hnone e he ⟨hx.2, hx.1⟩
  · simp [run, postEmargement, hr, World.init, resStatus, resSend, bind, H.bind,
      Outcome.responses, responsesOf, writeAfterFailure]

end TPNodeJS
